import Mathlib

/-!
Shallow embedding of `src/app.py` (danilomolero/neural-sales-web), a small
Streamlit application with three operations: a transcript Lister
(`get_fireflies_transcripts`), a transcript Fetcher
(`get_transcript_text_by_id`) and an insight Generator
(`generate_sales_insights`), plus the UI button handlers in `main`.

JSON response bodies are modelled by an inductive `Json` type, Python
exceptions by `PyExc`, and the behaviour of one HTTP POST by `HttpOutcome`.
Calls to `st.error` / `st.warning` / `st.success` / `st.markdown` are
modelled as structured `Notice` / `Render` values accumulated in the result.
Each operation returns an `OpResult`: the value the Python function would
return (or the uncaught exception it would raise, as `Except.error`), the
notifications it displayed, and the number of HTTP calls it performed.
-/

namespace NeuralSales

/-- A JSON value, as produced by `resp.json()` in the Python source. -/
inductive Json where
  | null : Json
  | bool (b : Bool) : Json
  | num (n : Int) : Json
  | str (s : String) : Json
  | arr (elems : List Json) : Json
  | obj (fields : List (String × Json)) : Json

/-- Python exceptions that the code under `src/app.py` can raise or catch.
`requestException` covers the whole `requests.RequestException` hierarchy
(connection errors, `HTTPError` from `raise_for_status`, and — in the
requests versions where `Response.json` raises
`requests.exceptions.JSONDecodeError` — malformed-JSON bodies). -/
inductive PyExc where
  | requestException (msg : String) : PyExc
  | attributeError (msg : String) : PyExc
  | keyError (key : String) : PyExc
  | typeError (msg : String) : PyExc
  | other (msg : String) : PyExc

/-- Whether an exception is caught by `except requests.RequestException`. -/
def PyExc.isRequestException : PyExc → Bool
  | .requestException _ => true
  | _ => false

/-- The message used when the exception is interpolated into an f-string. -/
def PyExc.msg : PyExc → String
  | .requestException m => m
  | .attributeError m => m
  | .keyError k => k
  | .typeError m => m
  | .other m => m

/-- Outcome of one `requests.post` call: either a transport-level failure
(raising a `RequestException`) or a response with a status code and a body;
`body = none` models a body that is not valid JSON, so that `resp.json()`
raises. -/
inductive HttpOutcome where
  | transportError (msg : String) : HttpOutcome
  | response (status : Nat) (body : Option Json) : HttpOutcome

/-- A user-visible notification emitted through `st.error` by the two
Fireflies operations.  `graphqlErrors errs` carries the value of
`data["errors"]` that the source interpolates into the message
"Erro(s) retornado(s) pelo GraphQL: ...". -/
inductive Notice where
  | configMissing : Notice
  | graphqlErrors (errs : Json) : Notice
  | requestFailure (msg : String) : Notice

/-- Result of running one of the Python operations: the returned value (or
the exception that escaped it), the notifications shown to the user, and
how many HTTP calls were made. -/
structure OpResult (α : Type) where
  value : Except PyExc α
  notices : List Notice
  httpCalls : Nat

/-- Python `key in data` for a JSON value: key membership for a dict,
element membership for a list, substring test for a string, and a
`TypeError` otherwise. -/
def pyIn (key : String) : Json → Except PyExc Bool
  | .obj fields => .ok (fields.lookup key).isSome
  | .arr xs => .ok (xs.any (fun j => match j with | .str s => s = key | _ => false))
  | .str s => .ok ((s.splitOn key).length != 1)
  | _ => .error (.typeError "argument of type is not iterable")

/-- Python `data.get(key, default)`: defined on dicts only; any other
value has no `get` attribute and raises `AttributeError`. -/
def dictGet (j : Json) (key : String) (default : Json) : Except PyExc Json :=
  match j with
  | .obj fields => .ok ((fields.lookup key).getD default)
  | _ => .error (.attributeError "object has no attribute get")

/-- Python `j[key]` for a string key: dict lookup raising `KeyError` when
the key is absent, `TypeError` on any non-dict value. -/
def subscript (j : Json) (key : String) : Except PyExc Json :=
  match j with
  | .obj fields =>
      match fields.lookup key with
      | some v => .ok v
      | none => .error (.keyError key)
  | _ => .error (.typeError "object is not subscriptable by str")

/-- Python iteration `for s in j`: lists yield their elements, dicts their
keys, strings their one-character substrings; other values raise
`TypeError`. -/
def pyIter : Json → Except PyExc (List Json)
  | .arr xs => .ok xs
  | .obj fields => .ok (fields.map (fun kv => Json.str kv.1))
  | .str s => .ok (s.toList.map (fun c => Json.str (String.mk [c])))
  | _ => .error (.typeError "object is not iterable")

/-- Python `sep.join(items)`: every item must be a `str`, otherwise a
`TypeError`; on success the concatenation with `sep` interleaved. -/
def strJoin (sep : String) (items : List Json) : Except PyExc String :=
  match items.mapM (fun j => match j with | .str s => some s | _ => none) with
  | some strs => .ok (String.intercalate sep strs)
  | none => .error (.typeError "sequence item: expected str instance")

/-- Python `s.strip()`: drop whitespace from both ends of the string
(modelled over the ASCII whitespace characters). -/
def pyStrip (s : String) : String :=
  String.mk ((((s.data.dropWhile Char.isWhitespace).reverse).dropWhile
    Char.isWhitespace).reverse)

/-- The configuration read from the environment at module load:
`FIRELIES_API_KEY`, `FIRELIES_GRAPHQL_ENDPOINT`, `GOOGLE_API_KEY`
(each defaulting to the empty string). -/
structure Config where
  firelies_api_key : String
  firelies_graphql_endpoint : String
  google_api_key : String

/-- Body of the `try:` block of `get_fireflies_transcripts`: issue the POST,
`raise_for_status()`, decode JSON, report a GraphQL `errors` key, otherwise
return `data.get("data", {}).get("transcripts", [])`; `raise_for_status`
raises `HTTPError` exactly for the 4xx and 5xx status codes. -/
def listerTryBody (http : HttpOutcome) : Except PyExc (Json × List Notice) :=
  match http with
  | .transportError m => .error (.requestException m)
  | .response status body =>
      if 400 ≤ status ∧ status < 600 then
        .error (.requestException ("HTTP error " ++ toString status))
      else
        match body with
        | none => .error (.requestException "invalid JSON in response body")
        | some data => do
            let hasErr ← pyIn "errors" data
            if hasErr then do
              let errs ← subscript data "errors"
              pure (Json.arr [], [Notice.graphqlErrors errs])
            else do
              let d ← dictGet data "data" (Json.obj [])
              let transcripts ← dictGet d "transcripts" (Json.arr [])
              pure (transcripts, [])

/-- `get_fireflies_transcripts` from `src/app.py`: empty key or endpoint
short-circuits to a configuration error and `[]` with no HTTP call;
then the `try:` body runs, `requests.RequestException` is caught and turned
into a notification plus `[]`, and any other exception escapes. -/
def get_fireflies_transcripts (cfg : Config) (http : HttpOutcome) : OpResult Json :=
  if cfg.firelies_api_key = "" ∨ cfg.firelies_graphql_endpoint = "" then
    { value := .ok (Json.arr []), notices := [Notice.configMissing], httpCalls := 0 }
  else
    match listerTryBody http with
    | .ok (ts, ns) => { value := .ok ts, notices := ns, httpCalls := 1 }
    | .error e =>
        if e.isRequestException then
          { value := .ok (Json.arr []), notices := [Notice.requestFailure e.msg], httpCalls := 1 }
        else
          { value := .error e, notices := [], httpCalls := 1 }

/-- Body of the `try:` block of `get_transcript_text_by_id`: issue the POST,
`raise_for_status()`, decode JSON, report a GraphQL `errors` key and return
`""`, otherwise navigate `data -> transcript -> sentences` with `.get`
defaults and return `"\n".join([s["text"] for s in sentences])`. -/
def fetcherTryBody (http : HttpOutcome) : Except PyExc (String × List Notice) :=
  match http with
  | .transportError m => .error (.requestException m)
  | .response status body =>
      if 400 ≤ status ∧ status < 600 then
        .error (.requestException ("HTTP error " ++ toString status))
      else
        match body with
        | none => .error (.requestException "invalid JSON in response body")
        | some data => do
            let hasErr ← pyIn "errors" data
            if hasErr then do
              let errs ← subscript data "errors"
              pure ("", [Notice.graphqlErrors errs])
            else do
              let d ← dictGet data "data" (Json.obj [])
              let transcript ← dictGet d "transcript" (Json.obj [])
              let sentences ← dictGet transcript "sentences" (Json.arr [])
              let items ← pyIter sentences
              let texts ← items.mapM (fun s => subscript s "text")
              let text ← strJoin "\n" texts
              pure (text, [])

/-- `get_transcript_text_by_id` from `src/app.py`: no configuration check;
the `try:` body runs, `requests.RequestException` is caught and turned into
a notification plus `""`, and any other exception escapes.  The transcript
id only enters the GraphQL variables, so it does not affect the modelled
control flow. -/
def get_transcript_text_by_id (cfg : Config) (transcript_id : String)
    (http : HttpOutcome) : OpResult String :=
  match fetcherTryBody http with
  | .ok (text, ns) => { value := .ok text, notices := ns, httpCalls := 1 }
  | .error e =>
      if e.isRequestException then
        { value := .ok "", notices := [Notice.requestFailure e.msg], httpCalls := 1 }
      else
        { value := .error e, notices := [], httpCalls := 1 }

/-- One content part of a generated candidate, exposing `text`. -/
structure Part where
  text : String

/-- The `content` of a candidate, exposing `parts`.  A candidate whose
`content` has no usable `parts` attribute (the `hasattr` checks in the
source fail) is modelled by `Candidate.content = none`. -/
structure Content where
  parts : List Part

/-- One response candidate.  `content = none` models a candidate for which
`hasattr(candidate, 'content') and hasattr(candidate.content, 'parts')`
is false. -/
structure Candidate where
  content : Option Content

/-- The `prompt_feedback` of a response.  `block_reason = none` models a
falsy block reason (absent, `None`, or the zero enum value). -/
structure PromptFeedback where
  block_reason : Option String

/-- A response from `model.generate_content`.  `prompt_feedback = none`
models a falsy feedback object, `text = none` models a response on which
`hasattr(response, 'text')` is false (in the real client library the
`text` property raises when no candidate part exists, which makes
`hasattr` return false). -/
structure GenResponse where
  prompt_feedback : Option PromptFeedback
  candidates : List Candidate
  text : Option String

/-- Outcome of the `model.generate_content` call. -/
inductive InvokeOutcome where
  | raises (msg : String) : InvokeOutcome
  | returns (resp : GenResponse) : InvokeOutcome

/-- A behaviour of the generative-AI client: whether `genai.configure`
raises, and what `generate_content` does on a given prompt. -/
structure GenAIClient where
  configureRaises : Option String
  invoke : String → InvokeOutcome

/-- Result of `generate_sales_insights`: the returned string (or the
exception that escaped), plus the number of model invocations. -/
structure GenResult where
  value : Except PyExc String
  modelCalls : Nat

/-- The fixed prompt template of `generate_sales_insights`, with the
transcript text embedded verbatim between triple quotes. -/
def buildPrompt (transcript_text : String) : String :=
  "\nVocê é um especialista em análise de vendas com vasta experiência.\n" ++
  "Sua tarefa é analisar a seguinte transcrição de uma interação de vendas:\n\n" ++
  "\"\"\"\n" ++ transcript_text ++ "\n\"\"\"\n\n" ++
  "Com base na transcrição, liste **INSIGHTS ACIONÁVEIS** de vendas. " ++
  "Organize sua resposta nas seguintes categorias:\n\n" ++
  "- **Oportunidades de Venda**\n- **Necessidades Explícitas**\n" ++
  "- **Necessidades Implícitas**\n- **Objeções**\n- **Upsell/Cross-sell**\n" ++
  "- **Estratégias Comerciais**\n- **Sentimento Geral**\n\n" ++
  "Responda em formato markdown.\n"

/-- The fallback branch of the extraction in `generate_sales_insights`:
`candidate.content.parts[0].text.strip()` when the `hasattr` chain holds
and `parts` is non-empty, else the fixed could-not-extract message. -/
def candidateFallback (candidate : Candidate) : String :=
  match candidate.content with
  | some content =>
      match content.parts with
      | [] => "Não foi possível extrair insights do modelo."
      | part0 :: _ => pyStrip part0.text
  | none => "Não foi possível extrair insights do modelo."

/-- The response-extraction logic of `generate_sales_insights`, line by
line: block reason, empty candidate list, `response.text` when non-blank
after `strip()`, the first-candidate fallback, then the fixed message. -/
def generate_extract (resp : GenResponse) : String :=
  match resp.prompt_feedback.bind PromptFeedback.block_reason with
  | some reason => "**Bloqueado pelo modelo**. Razão: " ++ reason
  | none =>
      match resp.candidates with
      | [] => "Nenhum candidato de resposta retornado."
      | candidate :: _ =>
          match resp.text with
          | some t => if pyStrip t ≠ "" then pyStrip t else candidateFallback candidate
          | none => candidateFallback candidate

/-- `generate_sales_insights` from `src/app.py`.  An empty Google key
short-circuits to the fixed not-configured message with no model call.
`genai.configure` runs OUTSIDE the `try:` block, so an exception it raises
escapes the function; everything from model construction through response
extraction is inside `try: ... except Exception`, whose handler returns
the exception rendered into a string. -/
def generate_sales_insights (google_api_key : String) (client : GenAIClient)
    (transcript_text : String) : GenResult :=
  if google_api_key = "" then
    { value := .ok "Chave de API do Google não configurada.", modelCalls := 0 }
  else
    match client.configureRaises with
    | some m => { value := .error (.other m), modelCalls := 0 }
    | none =>
        match client.invoke (buildPrompt transcript_text) with
        | .raises m =>
            { value := .ok ("Ocorreu uma exceção ao gerar insights: " ++ m), modelCalls := 1 }
        | .returns resp =>
            { value := .ok (generate_extract resp), modelCalls := 1 }

/-- Spec-side extraction, following the words of §4.3 step by step: (1) a
present block reason yields a message stating it; (2) an empty candidate
list yields the fixed no-candidate message; (3) a present, non-blank
primary text field is returned trimmed; (4) otherwise the first
candidate's first content segment is returned trimmed; (5) otherwise the
fixed could-not-extract message.  Written from the spec only, to be
compared with `generate_extract`. -/
def extract_steps_spec (resp : GenResponse) : String :=
  match resp.prompt_feedback.bind PromptFeedback.block_reason with
  | some reason => "**Bloqueado pelo modelo**. Razão: " ++ reason
  | none =>
      if resp.candidates.isEmpty then "Nenhum candidato de resposta retornado."
      else
        match resp.text.bind (fun t => if pyStrip t ≠ "" then some (pyStrip t) else none) with
        | some trimmed => trimmed
        | none =>
            match (resp.candidates.head?.bind Candidate.content).bind
                (fun content => content.parts.head?) with
            | some seg => pyStrip seg.text
            | none => "Não foi possível extrair insights do modelo."

/-- The single piece of session state held by `main`: the value stored
under `st.session_state["transcripts"]`. -/
structure SessionState where
  transcripts : Json

/-- What the "Gerar Insights" button handler renders. -/
inductive Render where
  | notice (n : Notice) : Render
  | warning : Render
  | success : Render
  | markdown (s : String) : Render

/-- The "Gerar Insights" button handler in `main`: fetch the transcript
text, warn when it is blank, otherwise generate and render the insights.
It returns the session state it leaves behind together with what it
rendered (or the exception that escaped).  The handler never assigns to
`st.session_state`. -/
def insights_button_handler (state : SessionState) (cfg : Config)
    (transcript_id : String) (http : HttpOutcome) (client : GenAIClient) :
    SessionState × Except PyExc (List Render) :=
  let fetched := get_transcript_text_by_id cfg transcript_id http
  match fetched.value with
  | .error e => (state, .error e)
  | .ok text =>
      if pyStrip text = "" then
        (state, .ok (fetched.notices.map Render.notice ++ [Render.warning]))
      else
        match (generate_sales_insights cfg.google_api_key client text).value with
        | .error e => (state, .error e)
        | .ok insights =>
            (state, .ok (fetched.notices.map Render.notice ++
              [Render.success, Render.markdown insights]))

/-- A fully populated configuration, for concrete instances. -/
def cfgExample : Config :=
  { firelies_api_key := "key", firelies_graphql_endpoint := "endpoint", google_api_key := "gkey" }

/-- A configuration whose Fireflies API key is empty. -/
def cfgMissingKey : Config :=
  { firelies_api_key := "", firelies_graphql_endpoint := "endpoint", google_api_key := "gkey" }

/-- A client behaviour where `genai.configure` raises. -/
def clientConfigureBoom : GenAIClient :=
  { configureRaises := some "boom", invoke := fun _ => InvokeOutcome.raises "network down" }

/-- A client behaviour where configuration succeeds and the model call
raises. -/
def clientInvokeRaises : GenAIClient :=
  { configureRaises := none, invoke := fun _ => InvokeOutcome.raises "timeout" }

/-- A response body whose `data` field is JSON `null`. -/
def nullDataBody : Json := Json.obj [("data", Json.null)]

/-- The response body of a successful transcript fetch whose sentences
carry the given texts. -/
def sentencesBody (texts : List String) : Json :=
  Json.obj [("data", Json.obj [("transcript", Json.obj [("sentences",
    Json.arr (texts.map (fun t => Json.obj [("text", Json.str t)])))])])]

/-- A mocked response with blank primary text and a non-blank first
segment in the first candidate. -/
def respBlankPrimary : GenResponse :=
  { prompt_feedback := none
    candidates := [{ content := some { parts := [{ text := "  seg " }] } }]
    text := some "   " }

/-- A transport failure makes the Lister try-body raise a request
exception. -/
lemma listerTryBody_transport (m : String) :
    listerTryBody (HttpOutcome.transportError m) = .error (.requestException m) := rfl

/-- A status of 400 or above makes `raise_for_status` raise inside the
Lister try-body. -/
lemma listerTryBody_status (s : Nat) (b : Option Json) (h : 400 ≤ s ∧ s < 600) :
    listerTryBody (HttpOutcome.response s b)
      = .error (.requestException ("HTTP error " ++ toString s)) := by
  simp only [listerTryBody]
  rw [if_pos h]

/-- A malformed JSON body makes `resp.json()` raise inside the Lister
try-body. -/
lemma listerTryBody_badJson (s : Nat) (h : ¬ (400 ≤ s ∧ s < 600)) :
    listerTryBody (HttpOutcome.response s none)
      = .error (.requestException "invalid JSON in response body") := by
  simp [listerTryBody, h]

/-- A body with an `errors` key makes the Lister try-body report the
errors value and return the empty list. -/
lemma listerTryBody_errors (s : Nat) (fields : List (String × Json)) (v : Json)
    (h : ¬ (400 ≤ s ∧ s < 600)) (hv : fields.lookup "errors" = some v) :
    listerTryBody (HttpOutcome.response s (some (Json.obj fields)))
      = .ok (Json.arr [], [Notice.graphqlErrors v]) := by
  simp [listerTryBody, h, pyIn, hv, subscript, bind, Except.bind, pure, Except.pure]

/-- A transport failure makes the Fetcher try-body raise a request
exception. -/
lemma fetcherTryBody_transport (m : String) :
    fetcherTryBody (HttpOutcome.transportError m) = .error (.requestException m) := rfl

/-- A status of 400 or above makes `raise_for_status` raise inside the
Fetcher try-body. -/
lemma fetcherTryBody_status (s : Nat) (b : Option Json) (h : 400 ≤ s ∧ s < 600) :
    fetcherTryBody (HttpOutcome.response s b)
      = .error (.requestException ("HTTP error " ++ toString s)) := by
  simp only [fetcherTryBody]
  rw [if_pos h]

/-- A malformed JSON body makes `resp.json()` raise inside the Fetcher
try-body. -/
lemma fetcherTryBody_badJson (s : Nat) (h : ¬ (400 ≤ s ∧ s < 600)) :
    fetcherTryBody (HttpOutcome.response s none)
      = .error (.requestException "invalid JSON in response body") := by
  simp [fetcherTryBody, h]

/-- A body with an `errors` key makes the Fetcher try-body report the
errors value and return the empty string. -/
lemma fetcherTryBody_errors (s : Nat) (fields : List (String × Json)) (v : Json)
    (h : ¬ (400 ≤ s ∧ s < 600)) (hv : fields.lookup "errors" = some v) :
    fetcherTryBody (HttpOutcome.response s (some (Json.obj fields)))
      = .ok ("", [Notice.graphqlErrors v]) := by
  simp [fetcherTryBody, h, pyIn, hv, subscript, bind, Except.bind, pure, Except.pure]

/-- When the try-body raises a request exception, the Lister returns the
empty list and shows a notification (whether or not the configuration
guard fired first). -/
lemma lister_absorbed_of_reqExc (cfg : Config) (http : HttpOutcome) (m : String)
    (h : listerTryBody http = .error (.requestException m)) :
    (get_fireflies_transcripts cfg http).value = .ok (Json.arr []) ∧
    (get_fireflies_transcripts cfg http).notices ≠ [] := by
  unfold get_fireflies_transcripts
  by_cases hc : cfg.firelies_api_key = "" ∨ cfg.firelies_graphql_endpoint = ""
  · rw [if_pos hc]
    exact ⟨rfl, List.cons_ne_nil _ _⟩
  · rw [if_neg hc, h]
    exact ⟨rfl, List.cons_ne_nil _ _⟩

/-- When the try-body completes with the empty list and a GraphQL-error
notification, the Lister returns the empty list and shows a
notification. -/
lemma lister_absorbed_of_ok_notice (cfg : Config) (http : HttpOutcome) (v : Json)
    (h : listerTryBody http = .ok (Json.arr [], [Notice.graphqlErrors v])) :
    (get_fireflies_transcripts cfg http).value = .ok (Json.arr []) ∧
    (get_fireflies_transcripts cfg http).notices ≠ [] := by
  unfold get_fireflies_transcripts
  by_cases hc : cfg.firelies_api_key = "" ∨ cfg.firelies_graphql_endpoint = ""
  · rw [if_pos hc]
    exact ⟨rfl, List.cons_ne_nil _ _⟩
  · rw [if_neg hc, h]
    exact ⟨rfl, List.cons_ne_nil _ _⟩

/-- When the try-body raises a request exception, the Fetcher returns the
empty string and shows a notification. -/
lemma fetcher_absorbed_of_reqExc (cfg : Config) (transcript_id : String)
    (http : HttpOutcome) (m : String)
    (h : fetcherTryBody http = .error (.requestException m)) :
    (get_transcript_text_by_id cfg transcript_id http).value = .ok "" ∧
    (get_transcript_text_by_id cfg transcript_id http).notices ≠ [] := by
  unfold get_transcript_text_by_id
  rw [h]
  exact ⟨rfl, List.cons_ne_nil _ _⟩

/-- When the try-body completes with the empty string and a GraphQL-error
notification, so does the Fetcher. -/
lemma fetcher_absorbed_of_ok_notice (cfg : Config) (transcript_id : String)
    (http : HttpOutcome) (v : Json)
    (h : fetcherTryBody http = .ok ("", [Notice.graphqlErrors v])) :
    (get_transcript_text_by_id cfg transcript_id http).value = .ok "" ∧
    (get_transcript_text_by_id cfg transcript_id http).notices ≠ [] := by
  unfold get_transcript_text_by_id
  rw [h]
  exact ⟨rfl, List.cons_ne_nil _ _⟩

/-- When the try-body completes, the Fetcher returns its text. -/
lemma fetcher_value_of_ok (cfg : Config) (transcript_id : String)
    (http : HttpOutcome) (t : String) (ns : List Notice)
    (h : fetcherTryBody http = .ok (t, ns)) :
    (get_transcript_text_by_id cfg transcript_id http).value = .ok t := by
  unfold get_transcript_text_by_id
  rw [h]

/-- Claim C1 counterexample: with a non-empty Google key and a client
whose `genai.configure` raises, `generate_sales_insights` propagates the
exception to its caller — `genai.configure` runs outside the `try:`
block. -/
theorem c1_counterexample :
    (generate_sales_insights "gkey" clientConfigureBoom "text").value =
      Except.error (PyExc.other "boom") := rfl

/-- Claim C1 (amended): for every input text and every client behaviour
in which `genai.configure` does not raise, `generate_sales_insights`
returns a string and raises nothing; exceptions during the model
invocation and response extraction are caught by the
`except Exception` handler. -/
theorem c1_amended_no_raise (google_api_key transcript_text : String)
    (client : GenAIClient) (h : client.configureRaises = none) :
    ((generate_sales_insights google_api_key client transcript_text).value).isOk = true := by
  unfold generate_sales_insights
  by_cases hk : google_api_key = ""
  · rw [if_pos hk]; rfl
  · rw [if_neg hk, h]
    cases client.invoke (buildPrompt transcript_text) <;> rfl

/-- Witness for C1 at a concrete client whose model call raises. -/
theorem c1_amended_no_raise_witness :
    clientInvokeRaises.configureRaises = none ∧
    ((generate_sales_insights "gkey" clientInvokeRaises "text").value).isOk = true :=
  ⟨rfl, c1_amended_no_raise "gkey" "text" clientInvokeRaises rfl⟩

/-- Claim C2 counterexample: a 200 response whose well-formed JSON body
maps `data` to `null` makes `get_fireflies_transcripts` raise an
`AttributeError` (from `None.get("transcripts", [])`) that is not caught
by `except requests.RequestException`, so an exception does reach the
caller. -/
theorem c2_counterexample :
    (get_fireflies_transcripts cfgExample (HttpOutcome.response 200 (some nullDataBody))).value =
      Except.error (PyExc.attributeError "object has no attribute get") := rfl

/-- Claim C2 (amended): for every transport failure, every HTTP error
status in 400-599 (the ones `raise_for_status` raises for), every
malformed JSON body, and every body carrying an `errors` key, the Lister
returns the empty list and the Fetcher the empty string, each showing a
user-visible notification, and no exception propagates; the original
claim fails only on well-formed bodies of unexpected shape that reach the
extraction code (for example a `null` `data` field or sentence objects
missing `text`), where an uncaught exception escapes. -/
theorem c2_absorbed_failures (cfg : Config) (transcript_id : String)
    (http : HttpOutcome)
    (h : (∃ m, http = HttpOutcome.transportError m) ∨
         (∃ s b, http = HttpOutcome.response s b ∧ 400 ≤ s ∧ s < 600) ∨
         (∃ s, http = HttpOutcome.response s none) ∨
         (∃ s fields v, http = HttpOutcome.response s (some (Json.obj fields)) ∧
            fields.lookup "errors" = some v)) :
    ((get_fireflies_transcripts cfg http).value = .ok (Json.arr []) ∧
      (get_fireflies_transcripts cfg http).notices ≠ []) ∧
    ((get_transcript_text_by_id cfg transcript_id http).value = .ok "" ∧
      (get_transcript_text_by_id cfg transcript_id http).notices ≠ []) := by
  rcases h with ⟨m, rfl⟩ | ⟨s, b, rfl, hs⟩ | ⟨s, rfl⟩ | ⟨s, fields, v, rfl, hv⟩
  · exact ⟨lister_absorbed_of_reqExc cfg _ m rfl,
      fetcher_absorbed_of_reqExc cfg _ _ m rfl⟩
  · exact ⟨lister_absorbed_of_reqExc cfg _ _ (listerTryBody_status s b hs),
      fetcher_absorbed_of_reqExc cfg _ _ _ (fetcherTryBody_status s b hs)⟩
  · by_cases hs : 400 ≤ s ∧ s < 600
    · exact ⟨lister_absorbed_of_reqExc cfg _ _ (listerTryBody_status s none hs),
        fetcher_absorbed_of_reqExc cfg _ _ _ (fetcherTryBody_status s none hs)⟩
    · exact ⟨lister_absorbed_of_reqExc cfg _ _ (listerTryBody_badJson s hs),
        fetcher_absorbed_of_reqExc cfg _ _ _ (fetcherTryBody_badJson s hs)⟩
  · by_cases hs : 400 ≤ s ∧ s < 600
    · exact ⟨lister_absorbed_of_reqExc cfg _ _ (listerTryBody_status s _ hs),
        fetcher_absorbed_of_reqExc cfg _ _ _ (fetcherTryBody_status s _ hs)⟩
    · exact ⟨lister_absorbed_of_ok_notice cfg _ v (listerTryBody_errors s fields v hs hv),
        fetcher_absorbed_of_ok_notice cfg _ _ v (fetcherTryBody_errors s fields v hs hv)⟩

/-- Witness for C2 at a concrete transport failure. -/
theorem c2_absorbed_failures_witness :
    ((get_fireflies_transcripts cfgExample (HttpOutcome.transportError "timeout")).value
        = .ok (Json.arr []) ∧
      (get_fireflies_transcripts cfgExample (HttpOutcome.transportError "timeout")).notices
        ≠ []) ∧
    ((get_transcript_text_by_id cfgExample "t1" (HttpOutcome.transportError "timeout")).value
        = .ok "" ∧
      (get_transcript_text_by_id cfgExample "t1"
          (HttpOutcome.transportError "timeout")).notices ≠ []) :=
  c2_absorbed_failures cfgExample "t1" _ (Or.inl ⟨"timeout", rfl⟩)

/-- Claim C5: whenever the Fireflies API key or the GraphQL endpoint is
empty, `get_fireflies_transcripts` reports the configuration error,
returns the empty list, and performs zero HTTP calls. -/
theorem c5_config_guard (cfg : Config) (http : HttpOutcome)
    (h : cfg.firelies_api_key = "" ∨ cfg.firelies_graphql_endpoint = "") :
    get_fireflies_transcripts cfg http =
      { value := .ok (Json.arr []), notices := [Notice.configMissing], httpCalls := 0 } := by
  unfold get_fireflies_transcripts
  rw [if_pos h]

/-- Witness for C5 at a concrete configuration with an empty key. -/
theorem c5_config_guard_witness :
    get_fireflies_transcripts cfgMissingKey (HttpOutcome.transportError "unreachable") =
      { value := .ok (Json.arr []), notices := [Notice.configMissing], httpCalls := 0 } :=
  c5_config_guard cfgMissingKey (HttpOutcome.transportError "unreachable") (Or.inl rfl)

/-- Claim C6: with an empty Google API key, `generate_sales_insights`
returns the fixed not-configured message, performs no model call, and
raises nothing, for every input text and every client behaviour. -/
theorem c6_google_key_guard (client : GenAIClient) (transcript_text : String) :
    generate_sales_insights "" client transcript_text =
      { value := .ok "Chave de API do Google não configurada.", modelCalls := 0 } := by
  unfold generate_sales_insights
  rw [if_pos rfl]

/-- Claim C8: the "Gerar Insights" button handler leaves the session
transcript list unchanged, for every transcript id, HTTP outcome and
client behaviour, including the ones under which an exception escapes. -/
theorem c8_insights_flow_frame (state : SessionState) (cfg : Config)
    (transcript_id : String) (http : HttpOutcome) (client : GenAIClient) :
    (insights_button_handler state cfg transcript_id http client).1 = state := by
  simp only [insights_button_handler]
  split
  · rfl
  · split
    · rfl
    · split <;> rfl

/-- Claim C9: `get_fireflies_transcripts` is a deterministic function of
the configuration and of the backend behaviour, so two successive calls
against an unchanged backend return equal results — same value sequence,
same order, same notifications. -/
theorem c9_lister_idempotent (cfg : Config) (http1 http2 : HttpOutcome)
    (h : http1 = http2) :
    get_fireflies_transcripts cfg http1 = get_fireflies_transcripts cfg http2 := by
  rw [h]

/-- The fallback branch of the source equals the spec-side extraction of
the first segment of a candidate. -/
lemma candidateFallback_eq_spec (c : Candidate) :
    candidateFallback c =
      match c.content.bind (fun content => content.parts.head?) with
      | some seg => pyStrip seg.text
      | none => "Não foi possível extrair insights do modelo." := by
  obtain ⟨oc⟩ := c
  cases oc with
  | none => rfl
  | some content =>
      obtain ⟨ps⟩ := content
      cases ps <;> rfl

/-- Claim C3: the response extraction of `generate_sales_insights`
follows exactly the priority order of the spec — block reason, empty
candidate list, non-blank primary text trimmed, first segment of the
first candidate trimmed, fixed message — and in particular a response
with blank primary text and a non-blank first segment yields that
segment trimmed. -/
theorem c3_extraction_priority :
    (∀ resp : GenResponse, generate_extract resp = extract_steps_spec resp) ∧
    (∀ (pf : Option PromptFeedback) (c : Candidate) (cs : List Candidate)
        (t : Option String) (content : Content) (p : Part) (ps : List Part),
      pf.bind PromptFeedback.block_reason = none →
      (∀ s, t = some s → pyStrip s = "") →
      c.content = some content →
      content.parts = p :: ps →
      generate_extract { prompt_feedback := pf, candidates := c :: cs, text := t }
        = pyStrip p.text) := by
  constructor
  · rintro ⟨pf, cands, txt⟩
    simp only [generate_extract, extract_steps_spec]
    cases hb : pf.bind PromptFeedback.block_reason with
    | some r => rfl
    | none =>
        cases cands with
        | nil => rfl
        | cons c cs =>
            simp only [List.isEmpty_cons, Bool.false_eq_true, if_false, List.head?_cons,
              Option.some_bind, candidateFallback_eq_spec]
            cases txt with
            | none => simp only [Option.none_bind]
            | some t =>
                simp only [Option.some_bind]
                by_cases ht : pyStrip t = ""
                · simp [ht]
                · simp [ht]
  · intro pf c cs t content p ps hb ht hc hp
    simp only [generate_extract, hb]
    cases t with
    | none => simp [candidateFallback, hc, hp]
    | some s =>
        have hs : pyStrip s = "" := ht s rfl
        simp [hs, candidateFallback, hc, hp]

/-- Witness for C3 at a concrete mocked response with blank primary text
and the first segment "  seg ". -/
theorem c3_extraction_priority_witness :
    generate_extract respBlankPrimary = "seg" := by
  have h := c3_extraction_priority.2 none
    { content := some { parts := [{ text := "  seg " }] } } []
    (some "   ") { parts := [{ text := "  seg " }] } { text := "  seg " } []
    rfl (by intro s hs; cases hs; rfl) rfl rfl
  exact h

/-- Each sentence object of a well-formed response subscripts to its
text; stated on the accumulator loop underlying `List.mapM`. -/
lemma mapM_loop_subscript_text (texts : List String) (acc : List Json) :
    List.mapM.loop (fun s => subscript s "text")
        (texts.map (fun t => Json.obj [("text", Json.str t)])) acc
      = Except.ok (acc.reverse ++ texts.map Json.str) := by
  induction texts generalizing acc with
  | nil => simp [List.mapM.loop]; rfl
  | cons t ts ih =>
      rw [List.map_cons, List.mapM.loop,
        show subscript (Json.obj [("text", Json.str t)]) "text" = Except.ok (Json.str t) from rfl]
      show List.mapM.loop (fun s => subscript s "text")
        (ts.map (fun t => Json.obj [("text", Json.str t)])) (Json.str t :: acc) = _
      rw [ih]
      simp [List.map_cons]

/-- Joining a list of JSON strings concatenates the underlying strings
with the separator. -/
lemma strJoin_map_str (sep : String) (texts : List String) :
    strJoin sep (texts.map Json.str) = .ok (String.intercalate sep texts) := by
  unfold strJoin
  have h : (texts.map Json.str).mapM
      (fun j => match j with | .str s => some s | _ => none) = some texts := by
    induction texts with
    | nil => rfl
    | cons t ts ih => rw [List.map_cons, List.mapM_cons, ih]; rfl
  rw [h]

/-- On a successful response carrying sentences, the Fetcher try-body
returns the newline join of the sentence texts and shows nothing. -/
lemma fetcherTryBody_sentences (s : Nat) (texts : List String)
    (h : ¬ (400 ≤ s ∧ s < 600)) :
    fetcherTryBody (HttpOutcome.response s (some (sentencesBody texts)))
      = .ok (String.intercalate "\n" texts, []) := by
  simp [fetcherTryBody, sentencesBody, if_neg h, pyIn, dictGet, pyIter,
    mapM_loop_subscript_text, strJoin_map_str, bind, Except.bind, pure, Except.pure]

/-- Claim C4: for every successful response whose transcript carries a
sequence of sentences, `get_transcript_text_by_id` returns the sentence
texts joined with a single newline, in API order; for ["Hello", "world"]
it returns "Hello\nworld" and for no sentences the empty string. -/
theorem c4_join_sentences (cfg : Config) (transcript_id : String) (status : Nat)
    (h : status < 400) :
    (∀ texts : List String,
      (get_transcript_text_by_id cfg transcript_id
          (HttpOutcome.response status (some (sentencesBody texts)))).value
        = .ok (String.intercalate "\n" texts)) ∧
    (get_transcript_text_by_id cfg transcript_id
        (HttpOutcome.response status (some (sentencesBody ["Hello", "world"])))).value
      = .ok "Hello\nworld" ∧
    (get_transcript_text_by_id cfg transcript_id
        (HttpOutcome.response status (some (sentencesBody [])))).value
      = .ok "" := by
  have hs : ¬ (400 ≤ status ∧ status < 600) := by omega
  have hall : ∀ texts : List String,
      (get_transcript_text_by_id cfg transcript_id
          (HttpOutcome.response status (some (sentencesBody texts)))).value
        = .ok (String.intercalate "\n" texts) := fun texts =>
    fetcher_value_of_ok cfg _ _ _ _ (fetcherTryBody_sentences status texts hs)
  exact ⟨hall, (hall ["Hello", "world"]).trans rfl, (hall []).trans rfl⟩

/-- Witness for C4 at status 200 and the sentence texts Hello, world. -/
theorem c4_join_sentences_witness :
    (get_transcript_text_by_id cfgExample "t1"
        (HttpOutcome.response 200 (some (sentencesBody ["Hello", "world"])))).value
      = .ok "Hello\nworld" :=
  (c4_join_sentences cfgExample "t1" 200 (by decide)).2.1

/-- Claim C7: whenever a delivered response body carries a non-empty
`errors` array (under a success status), the Lister returns the empty
list and the Fetcher the empty string, both report the error list to the
user, and no exception escapes. -/
theorem c7_graphql_errors_reported (cfg : Config) (transcript_id : String)
    (status : Nat) (fields : List (String × Json)) (e0 : Json) (rest : List Json)
    (hs : status < 400)
    (hk : ¬ cfg.firelies_api_key = "") (he : ¬ cfg.firelies_graphql_endpoint = "")
    (hv : fields.lookup "errors" = some (Json.arr (e0 :: rest))) :
    get_fireflies_transcripts cfg (HttpOutcome.response status (some (Json.obj fields)))
      = { value := .ok (Json.arr []),
          notices := [Notice.graphqlErrors (Json.arr (e0 :: rest))], httpCalls := 1 } ∧
    get_transcript_text_by_id cfg transcript_id
        (HttpOutcome.response status (some (Json.obj fields)))
      = { value := .ok "",
          notices := [Notice.graphqlErrors (Json.arr (e0 :: rest))], httpCalls := 1 } := by
  have hs' : ¬ (400 ≤ status ∧ status < 600) := by omega
  constructor
  · unfold get_fireflies_transcripts
    rw [if_neg (not_or.mpr ⟨hk, he⟩), listerTryBody_errors status fields _ hs' hv]
  · unfold get_transcript_text_by_id
    rw [fetcherTryBody_errors status fields _ hs' hv]

/-- Witness for C7 at a concrete body with one GraphQL error. -/
theorem c7_graphql_errors_reported_witness :
    get_fireflies_transcripts cfgExample (HttpOutcome.response 200
        (some (Json.obj [("errors", Json.arr [Json.str "bad query"])])))
      = { value := .ok (Json.arr []),
          notices := [Notice.graphqlErrors (Json.arr [Json.str "bad query"])], httpCalls := 1 } ∧
    get_transcript_text_by_id cfgExample "t1" (HttpOutcome.response 200
        (some (Json.obj [("errors", Json.arr [Json.str "bad query"])])))
      = { value := .ok "",
          notices := [Notice.graphqlErrors (Json.arr [Json.str "bad query"])], httpCalls := 1 } :=
  c7_graphql_errors_reported cfgExample "t1" 200
    [("errors", Json.arr [Json.str "bad query"])] (Json.str "bad query") []
    (by decide) (by decide) (by decide) rfl

/-- Claim C10: the GraphQL-error branch fires on mere key presence — a
200 response whose body maps `errors` to the EMPTY array still makes the
Lister report an error and return the empty list, and the Fetcher report
an error and return the empty string. -/
theorem c10_empty_errors_array (cfg : Config) (transcript_id : String)
    (fields : List (String × Json))
    (hk : ¬ cfg.firelies_api_key = "") (he : ¬ cfg.firelies_graphql_endpoint = "")
    (hv : fields.lookup "errors" = some (Json.arr [])) :
    get_fireflies_transcripts cfg (HttpOutcome.response 200 (some (Json.obj fields)))
      = { value := .ok (Json.arr []),
          notices := [Notice.graphqlErrors (Json.arr [])], httpCalls := 1 } ∧
    get_transcript_text_by_id cfg transcript_id
        (HttpOutcome.response 200 (some (Json.obj fields)))
      = { value := .ok "",
          notices := [Notice.graphqlErrors (Json.arr [])], httpCalls := 1 } := by
  have hs' : ¬ (400 ≤ 200 ∧ 200 < 600) := by decide
  constructor
  · unfold get_fireflies_transcripts
    rw [if_neg (not_or.mpr ⟨hk, he⟩), listerTryBody_errors 200 fields _ hs' hv]
  · unfold get_transcript_text_by_id
    rw [fetcherTryBody_errors 200 fields _ hs' hv]

/-- Witness for C10 at a concrete body mapping errors to the empty
array. -/
theorem c10_empty_errors_array_witness :
    get_fireflies_transcripts cfgExample (HttpOutcome.response 200
        (some (Json.obj [("errors", Json.arr [])])))
      = { value := .ok (Json.arr []),
          notices := [Notice.graphqlErrors (Json.arr [])], httpCalls := 1 } ∧
    get_transcript_text_by_id cfgExample "t1" (HttpOutcome.response 200
        (some (Json.obj [("errors", Json.arr [])])))
      = { value := .ok "",
          notices := [Notice.graphqlErrors (Json.arr [])], httpCalls := 1 } :=
  c10_empty_errors_array cfgExample "t1" [("errors", Json.arr [])]
    (by decide) (by decide) rfl

/-- Witness for C9 at a concrete configuration and backend outcome. -/
theorem c9_lister_idempotent_witness :
    get_fireflies_transcripts cfgExample (HttpOutcome.response 200 (some (Json.obj [])))
      = get_fireflies_transcripts cfgExample (HttpOutcome.response 200 (some (Json.obj []))) :=
  c9_lister_idempotent cfgExample _ _ rfl

end NeuralSales
